import Mathlib

/-!
Shallow embedding of `papercast_grobid/grobid.py` (the `GROBIDProcessor`
component of papercast-grobid) and proofs about it.

Python `float` values are modelled as rationals (`ℚ`); IEEE special values
(`nan`, `inf`) are outside the model.  Python exceptions are modelled with an
explicit error type and `Except`; total Lean functions model the fact that a
code path raises nothing.  Loops that poll an external service are given an
explicit fuel parameter; exhausting the fuel models the unbounded loop in the
source never terminating.
-/

deriving instance DecidableEq for Except

/-- Characters accepted by the `x in printable` test at grobid.py lines
201-203, where `printable = set(string.printable)`: ASCII `0x20`-`0x7E`
together with the whitespace controls `\t\n\v\f\r` (`0x09`-`0x0D`). -/
def pyPrintable (c : Char) : Bool :=
  (32 ≤ c.toNat && c.toNat ≤ 126) || (9 ≤ c.toNat && c.toNat ≤ 13)

/-- The non-printable-character filter of `_get_text_from_dict`
(grobid.py lines 201-203): keep exactly the characters in `string.printable`. -/
def filterPrintable (s : String) : String :=
  String.mk (s.toList.filter pyPrintable)

/-- Split a character list at every occurrence of `sep`, keeping empty
pieces, as Python `str.split` does for a one-character separator. -/
def splitChars (sep : Char) : List Char → List (List Char)
  | [] => [[]]
  | c :: cs =>
    let rest := splitChars sep cs
    if c = sep then [] :: rest
    else
      match rest with
      | r :: rs => (c :: r) :: rs
      | [] => [[c]]

/-- Model of Python `s.split(sep)` for a single-character separator, as used
by `coords.split(",")` at grobid.py line 113. -/
def pySplit (s : String) (sep : Char) : List String :=
  (splitChars sep s.toList).map String.mk

/-- Value of a list of decimal digit characters. -/
def digitsToNat (cs : List Char) : Nat :=
  cs.foldl (fun n c => 10 * n + (c.toNat - 48)) 0

/-- Exponent part of a Python float literal: optional sign and at least one
digit, consuming the whole remaining input.  The mantissa is passed as an
integer numerator `n` over the power-of-ten denominator `d`. -/
def parseExponent (n : ℤ) (d : ℕ) (cs : List Char) : Option ℚ :=
  let (epos, cs) :=
    match cs with
    | '+' :: r => (true, r)
    | '-' :: r => (false, r)
    | r => (true, r)
  let eds := cs.takeWhile Char.isDigit
  let rest := cs.dropWhile Char.isDigit
  if eds.isEmpty || !rest.isEmpty then none
  else
    let e := digitsToNat eds
    some (if epos then mkRat (n * (10 ^ e : ℕ)) d else mkRat n (d * 10 ^ e))

/-- Model of Python `float(s)` on a string, restricted to finite decimal
forms: optional sign, digits with an optional fractional part and an optional
exponent.  `none` models `float` raising `ValueError`.  The special values
`nan`/`inf` and digit underscores are outside this rational model. -/
def parseFloat (s : String) : Option ℚ :=
  let cs := s.toList
  let (sign, cs) :=
    match cs with
    | '+' :: r => ((1 : ℤ), r)
    | '-' :: r => ((-1 : ℤ), r)
    | r => ((1 : ℤ), r)
  let ip := cs.takeWhile Char.isDigit
  let cs := cs.dropWhile Char.isDigit
  let (fp, cs) :=
    match cs with
    | '.' :: r => (r.takeWhile Char.isDigit, r.dropWhile Char.isDigit)
    | _ => (([] : List Char), cs)
  if ip.isEmpty && fp.isEmpty then none
  else
    let d : ℕ := 10 ^ fp.length
    let n : ℤ := sign * (digitsToNat ip * d + digitsToNat fp : ℕ)
    match cs with
    | [] => some (mkRat n d)
    | 'e' :: r => parseExponent n d r
    | 'E' :: r => parseExponent n d r
    | _ => none

/-- Model of the comprehension `[float(x) for x in coords]` at grobid.py
line 120: all fields must parse, otherwise the conversion raises (caught by
the bare `except`, modelled as `none`). -/
def parseFloats : List String → Option (List ℚ)
  | [] => some []
  | x :: xs =>
    match parseFloat x, parseFloats xs with
    | some v, some vs => some (v :: vs)
    | _, _ => none

/-- Model of `np.round` on a rational: round to the nearest integer, ties to
the even integer (IEEE round-half-even, NumPy's behaviour).  The fractional
part `q - ⌊q⌋ = (q.num - ⌊q⌋ * q.den) / q.den` is compared with `1 / 2` by
cross-multiplying with the positive denominator. -/
def roundHalfEven (q : ℚ) : ℤ :=
  if 2 * (q.num - q.floor * (q.den : ℤ)) < (q.den : ℤ) then q.floor
  else if (q.den : ℤ) < 2 * (q.num - q.floor * (q.den : ℤ)) then q.floor + 1
  else if q.floor % 2 = 0 then q.floor else q.floor + 1

/-- Model of Python `int()` on a float: truncation toward zero. -/
def pyInt (q : ℚ) : ℤ :=
  if q.num < 0 then q.ceil else q.floor

/-- The dataclass `PDFBBox` of grobid.py lines 20-26: 1-based page index and
page coordinates. -/
structure PDFBBox where
  page : ℤ
  x0 : ℚ
  y0 : ℚ
  x1 : ℚ
  y1 : ℚ
  deriving DecidableEq

/-- The `PDFBBox(...)` construction at grobid.py lines 125-131:
`int(page)`, rounded `x0`/`y0`, and `x1`/`y1` obtained by adding the rounded
width/height to the rounded origin.  Both summands of `x1`/`y1` are integers,
so the float addition of the source is integer addition, performed here in
`ℤ` before the cast to `ℚ`. -/
def mkBBox (page x0 y0 width height : ℚ) : PDFBBox :=
  { page := pyInt page
    x0 := (roundHalfEven x0 : ℚ)
    y0 := (roundHalfEven y0 : ℚ)
    x1 := ((roundHalfEven x0 + roundHalfEven width : ℤ) : ℚ)
    y1 := ((roundHalfEven y0 + roundHalfEven height : ℤ) : ℚ) }

/-- Python exceptions raised (or posited by the specification) around the
processor.  `attributeError a` carries the attribute name whose access
failed; `exceptionErr` is a plain `Exception(msg)`; `pageIndexError` is the
specification's posited error class — the source defines no such class and no
code path below produces it. -/
inductive PyError where
  | attributeError (attr : String)
  | exceptionErr (msg : String)
  | typeError (msg : String)
  | indexError
  | notImplementedError
  | pageIndexError
  deriving DecidableEq

/-- `GROBIDProcessor._get_tei_obj_bbox` (grobid.py lines 112-133).  The
argument is the element's coordinate attribute: `none` models an element
without a `coords` attribute (then `None.split` raises `AttributeError`).
A field count other than 5, or a field `float()` rejects, logs a warning and
returns `None`; otherwise the `PDFBBox` is built. -/
def getTeiObjBbox (coordsAttr : Option String) : Except PyError (Option PDFBBox) :=
  match coordsAttr with
  | none => .error (.attributeError "split")
  | some s =>
    let coords := pySplit s ','
    if coords.length ≠ 5 then .ok none
    else
      match parseFloats coords with
      | none => .ok none
      | some [page, x0, y0, width, height] => .ok (some (mkBBox page x0 y0 width height))
      | some _ => .ok none

/-- Result of `page.crop(...).to_image(resolution=300)` in
`_get_tei_obj_img`: the 0-based page that was rendered, the crop rectangle
and the resolution.  The rendering library itself is external; its output is
modelled abstractly by this record. -/
structure CroppedImage where
  pageIndex : ℕ
  x0 : ℚ
  y0 : ℚ
  x1 : ℚ
  y1 : ℚ
  resolution : ℕ
  deriving DecidableEq

/-- Python list indexing semantics for a list of length `n`: non-negative
indices below `n` are themselves; negative indices from `-n` wrap around;
anything else raises `IndexError`.  Returns the normalized index. -/
def pyListGet (n : ℕ) (i : ℤ) : Except PyError ℕ :=
  if 0 ≤ i ∧ i < (n : ℤ) then .ok i.toNat
  else if -(n : ℤ) ≤ i ∧ i < 0 then .ok (i + n).toNat
  else .error .indexError

/-- `GROBIDProcessor._get_tei_obj_img` (grobid.py lines 135-160).  The PDF is
abstracted to its page count.  A `none` bbox short-circuits to `None`; the
`"pdfplumber"` branch selects `pages[bbox.page - 1]` with raw Python list
indexing (no guard, no dedicated error class) and renders the crop at
300 DPI; the `"pdf2image"` branch and any other method raise
`NotImplementedError`. -/
def getTeiObjImg (coordsAttr : Option String) (numPages : ℕ) (method : String) :
    Except PyError (Option CroppedImage) :=
  match getTeiObjBbox coordsAttr with
  | .error e => .error e
  | .ok none => .ok none
  | .ok (some bbox) =>
    if method = "pdfplumber" then
      match pyListGet numPages (bbox.page - 1) with
      | .error e => .error e
      | .ok idx => .ok (some { pageIndex := idx, x0 := bbox.x0, y0 := bbox.y0,
                               x1 := bbox.x1, y1 := bbox.y1, resolution := 300 })
    else .error .notImplementedError

/-- One entry of the `sections` list of the parsed mapping. -/
structure DocSection where
  heading : String
  text : String
  deriving DecidableEq

/-- The mapping returned by `parse_pdf_to_dict`: `title`, `abstract` and
`sections` are required keys (the code indexes them unconditionally);
`authors` is optional (the code tests `"authors" in article_dict`). -/
structure ArticleDict where
  title : String
  abstract : String
  sections : List DocSection
  authors : Option String
  deriving DecidableEq

/-- `papercast.types.Author` as constructed in `_extract_rich`: first and
last name (the email argument is commented out in the source). -/
structure Author where
  first_name : String
  last_name : String
  deriving DecidableEq

/-- `papercast.types.PDFFile`, reduced to the only field the processor
reads: its path. -/
structure PDFFile where
  path : String
  deriving DecidableEq

/-- The metadata dict built in `_extract` (grobid.py lines 74-83). -/
structure Metadata where
  outpath : String
  title : String
  authors : Option (List String)
  doi : Option String
  arxiv_id : Option String
  description : String
  deriving DecidableEq

/-- The caller-owned accumulator (`papercast.production.Production`).
Attributes are set dynamically in Python; a `none` field models an attribute
that has not been set (so `hasattr` is false for it). -/
structure Production where
  pdf : Option PDFFile := none
  metadata : Option Metadata := none
  text : Option String := none
  article_dict : Option ArticleDict := none
  authors : Option (List Author) := none
  title : Option String := none
  abstract : Option String := none
  figures : Option (List (Option CroppedImage)) := none
  equations : Option (List (Option CroppedImage)) := none
  deriving DecidableEq

/-- The metadata dict literal of `_extract` (grobid.py lines 74-83):
`authors` is the semicolon split of the mapping's `authors` value when that
key is present, otherwise `None`; `doi` and `arxiv_id` are always `None`. -/
def buildMetadata (d : ArticleDict) (outpath : String) : Metadata :=
  { outpath := outpath
    title := d.title
    authors := d.authors.map (fun a => pySplit a ';')
    doi := none
    arxiv_id := none
    description := d.abstract }

/-- `GROBIDProcessor._get_text_from_dict` (grobid.py lines 188-205): start
from title and abstract, append each section's heading and text in document
order, join everything with a blank line, and optionally drop non-printable
characters. -/
def getTextFromDict (removeNonPrintable : Bool) (d : ArticleDict) : String :=
  let textElements :=
    d.sections.foldl (fun acc s => acc ++ [s.heading, s.text]) [d.title, d.abstract]
  let text := String.intercalate "\n\n" textElements
  if removeNonPrintable then filterPrintable text else text

/-- The annotated tree (`BeautifulSoup` TEI soup) of `parse_pdf(..., soup=True)`,
reduced to what `_extract_rich` reads from it: the (forename, surname) pairs
of the author entries under the TEI header. -/
structure TeiTree where
  authorNames : List (String × String)
  deriving DecidableEq

/-- `GROBIDProcessor._extract` (grobid.py lines 67-89): parse the PDF to a
mapping (raising a plain `Exception` when the parser returns `None`), then
set `metadata`, `text` and `article_dict` on the accumulator and return it.
The external `parse_pdf_to_dict` is passed as a function argument. -/
def extract (parse : String → Option ArticleDict) (removeNonPrintable : Bool)
    (production : Production) : Except PyError Production :=
  match production.pdf with
  | none => .error (.attributeError "pdf")
  | some pdf =>
    match parse pdf.path with
    | none => .error (.exceptionErr "Could not parse pdf")
    | some d =>
      .ok { production with
              metadata := some (buildMetadata d pdf.path)
              text := some (getTextFromDict removeNonPrintable d)
              article_dict := some d }

/-- `GROBIDProcessor._extract_rich` (grobid.py lines 91-110): parse the PDF
to a soup and a mapping, build the author records from the soup, and set
`authors`, `title`, `abstract` and `text` on the accumulator.  A `None` soup
makes the `.find` call raise `AttributeError`; a `None` mapping makes the
`["title"]` subscript raise `TypeError`.  Figure/equation extraction is
commented out in the source and therefore absent here. -/
def extractRich (treeParse : String → Option TeiTree) (parse : String → Option ArticleDict)
    (removeNonPrintable : Bool) (production : Production) : Except PyError Production :=
  match production.pdf with
  | none => .error (.attributeError "pdf")
  | some pdf =>
    match treeParse pdf.path with
    | none => .error (.attributeError "find")
    | some tree =>
      match parse pdf.path with
      | none => .error (.typeError "NoneType object is not subscriptable")
      | some d =>
        .ok { production with
                authors := some (tree.authorNames.map (fun a => { first_name := a.1, last_name := a.2 }))
                title := some d.title
                abstract := some d.abstract
                text := some (getTextFromDict removeNonPrintable d) }

/-- The keys of `GROBIDProcessor.input_types()` (grobid.py lines 30-31). -/
def inputTypesKeys : List String := ["pdf"]

/-- Python `hasattr` on the accumulator: an attribute is present iff the
corresponding optional field is set. -/
def hasAttr (p : Production) (attr : String) : Bool :=
  if attr = "pdf" then p.pdf.isSome
  else if attr = "metadata" then p.metadata.isSome
  else if attr = "text" then p.text.isSome
  else if attr = "article_dict" then p.article_dict.isSome
  else if attr = "authors" then p.authors.isSome
  else if attr = "title" then p.title.isSome
  else if attr = "abstract" then p.abstract.isSome
  else if attr = "figures" then p.figures.isSome
  else if attr = "equations" then p.equations.isSome
  else false

/-- `GROBIDProcessor.process` (grobid.py lines 174-186): first check every
declared input attribute on the accumulator, raising `AttributeError` for the
first missing one; then dispatch on the `method` string — exactly `"rich"`
selects `_extract_rich`, everything else (including `None`) selects
`_extract`. -/
def process (treeParse : String → Option TeiTree) (parse : String → Option ArticleDict)
    (removeNonPrintable : Bool) (input : Production) (method : Option String) :
    Except PyError Production :=
  match inputTypesKeys.find? (fun attr => !hasAttr input attr) with
  | some attr => .error (.attributeError attr)
  | none =>
    if method = some "rich" then extractRich treeParse parse removeNonPrintable input
    else extract parse removeNonPrintable input

/-- Outcome of the service bring-up loop in `GROBIDProcessor.__init__`
(grobid.py lines 56-59).  `ok` models the constructor proceeding; `diverged`
models exhausting the fuel of a loop the source runs without any bound;
`serviceUnavailable` is the specification's posited `ServiceUnavailableError`
— the source defines no such error and no code path below produces it. -/
inductive EnsureOutcome where
  | ok
  | diverged
  | serviceUnavailable
  deriving DecidableEq

/-- The poll loop inside `_start_grobid` (grobid.py lines 212-213): sleep and
re-check until the health check succeeds.  `health t` is the result of the
`t`-th health check overall; returns the poll counter after success. -/
def waitOnline (health : ℕ → Bool) : ℕ → ℕ → Option ℕ
  | _, 0 => none
  | t, fuel + 1 => if health t then some (t + 1) else waitOnline health (t + 1) fuel

/-- The outer loop of `__init__` (grobid.py lines 57-59): while the health
check fails, spawn the serve script and block in `_start_grobid`'s poll loop,
then re-check. -/
def ensureOnlineLoop (health : ℕ → Bool) : ℕ → ℕ → EnsureOutcome
  | _, 0 => .diverged
  | t, fuel + 1 =>
    if health t then .ok
    else
      match waitOnline health (t + 1) fuel with
      | none => .diverged
      | some t2 => ensureOnlineLoop health t2 fuel

/-- The service bring-up of `GROBIDProcessor.__init__` (grobid.py lines
56-59): when `serve_grobid_script` is `None` the whole block is skipped — no
health check is made and construction succeeds unconditionally; otherwise the
constructor loops until a health check succeeds. -/
def ensureOnline (script : Option String) (health : ℕ → Bool) (fuel : ℕ) : EnsureOutcome :=
  match script with
  | none => .ok
  | some _ => ensureOnlineLoop health 0 fuel

/-- Concrete data used by the closed witness statements below. -/
def pdfEx : PDFFile := { path := "paper.pdf" }

def dictEx : ArticleDict :=
  { title := "T", abstract := "A", sections := [{ heading := "H1", text := "B1" }], authors := none }

def prodEx : Production := { pdf := some pdfEx }

def prodNoPdf : Production := { }

def parseEx : String → Option ArticleDict := fun _ => some dictEx

def treeParseEx : String → Option TeiTree := fun _ => none

/-- The accumulator produced by a standard-mode `process` run on `prodEx`. -/
def prodStdEx : Production :=
  { prodEx with
      metadata := some (buildMetadata dictEx pdfEx.path)
      text := some (getTextFromDict true dictEx)
      article_dict := some dictEx }

example : pySplit "1,10.2,20.7,30,40" ',' = ["1", "10.2", "20.7", "30", "40"] := by decide

example : parseFloat "10.2" = some (mkRat 51 5) := by decide

example : getTeiObjBbox (some "1,10.2,20.7,30,40") =
    .ok (some { page := 1, x0 := 10, y0 := 21, x1 := 40, y1 := 61 }) := by decide

/-! ## Supporting lemmas -/

theorem rat_floor_eq_floor (q : ℚ) : q.floor = ⌊q⌋ :=
  (Rat.floor_def' q).trans Rat.floor_def.symm

theorem roundHalfEven_nonneg {q : ℚ} (hq : 0 ≤ q) : 0 ≤ roundHalfEven q := by
  have h0 : (0 : ℤ) ≤ q.floor := by
    rw [rat_floor_eq_floor]
    exact Int.floor_nonneg.mpr hq
  unfold roundHalfEven
  repeat' split
  all_goals omega

theorem getTeiObjBbox_of_parse (s : String) (p x0 y0 w h : ℚ)
    (hlen : (pySplit s ',').length = 5)
    (hparse : parseFloats (pySplit s ',') = some [p, x0, y0, w, h]) :
    getTeiObjBbox (some s) = .ok (some (mkBBox p x0 y0 w h)) := by
  simp [getTeiObjBbox, hlen, hparse]

theorem parseFloats_none {l : List String} {f : String} (hf : f ∈ l)
    (hn : parseFloat f = none) : parseFloats l = none := by
  induction l with
  | nil => cases hf
  | cons x xs ih =>
    rcases List.mem_cons.mp hf with rfl | hmem
    · unfold parseFloats
      rw [hn]
    · unfold parseFloats
      rw [ih hmem]
      cases parseFloat x <;> rfl

theorem foldl_sections (l : List DocSection) (init : List String) :
    l.foldl (fun acc s => acc ++ [s.heading, s.text]) init =
      init ++ l.flatMap (fun s => [s.heading, s.text]) := by
  induction l generalizing init with
  | nil => simp
  | cons s t ih => simp [List.foldl_cons, List.flatMap_cons, ih, List.append_assoc]

theorem filter_pyPrintable_idem (l : List Char) :
    (l.filter pyPrintable).filter pyPrintable = l.filter pyPrintable := by
  induction l with
  | nil => rfl
  | cons c cs ih =>
    cases h : pyPrintable c with
    | true => simp [List.filter_cons, h, ih]
    | false => simp [List.filter_cons, h, ih]

/-! ## Claim theorems -/

/-- C4: `parseBBox` on the coordinate attribute `"1,10.2,20.7,30,40"` returns
a box with page 1, x0 = 10, y0 = 21, x1 = 40, y1 = 61; and in general, for a
well-formed 5-field numeric coordinate string, x0 and y0 are rounded to the
nearest integer first, and then x1 is round(x0) plus round(width) and y1 is
round(y0) plus round(height). -/
theorem parseBBox_rounding :
    getTeiObjBbox (some "1,10.2,20.7,30,40") =
      .ok (some { page := 1, x0 := 10, y0 := 21, x1 := 40, y1 := 61 }) ∧
    ∀ (s : String) (p x0 y0 w h : ℚ),
      (pySplit s ',').length = 5 →
      parseFloats (pySplit s ',') = some [p, x0, y0, w, h] →
      ∃ bbox : PDFBBox,
        getTeiObjBbox (some s) = .ok (some bbox) ∧
        bbox.page = pyInt p ∧
        bbox.x0 = (roundHalfEven x0 : ℚ) ∧
        bbox.y0 = (roundHalfEven y0 : ℚ) ∧
        bbox.x1 = (roundHalfEven x0 : ℚ) + (roundHalfEven w : ℚ) ∧
        bbox.y1 = (roundHalfEven y0 : ℚ) + (roundHalfEven h : ℚ) := by
  constructor
  · decide
  · intro s p x0 y0 w h hlen hparse
    refine ⟨mkBBox p x0 y0 w h, getTeiObjBbox_of_parse s p x0 y0 w h hlen hparse,
      rfl, rfl, rfl, ?_, ?_⟩
    · show ((roundHalfEven x0 + roundHalfEven w : ℤ) : ℚ) = _
      push_cast
      ring
    · show ((roundHalfEven y0 + roundHalfEven h : ℤ) : ℚ) = _
      push_cast
      ring

/-- C4 witness: the general statement applied to the concrete scenario
string, its hypotheses discharged by evaluation. -/
theorem parseBBox_rounding_witness :
    ∃ bbox : PDFBBox,
      getTeiObjBbox (some "1,10.2,20.7,30,40") = .ok (some bbox) ∧
      bbox.page = pyInt 1 ∧
      bbox.x0 = (roundHalfEven (mkRat 51 5) : ℚ) ∧
      bbox.y0 = (roundHalfEven (mkRat 207 10) : ℚ) ∧
      bbox.x1 = (roundHalfEven (mkRat 51 5) : ℚ) + (roundHalfEven 30 : ℚ) ∧
      bbox.y1 = (roundHalfEven (mkRat 207 10) : ℚ) + (roundHalfEven 40 : ℚ) :=
  parseBBox_rounding.2 "1,10.2,20.7,30,40" 1 (mkRat 51 5) (mkRat 207 10) 30 40
    (by decide) (by decide)

/-- C5: any coordinate attribute string that does not split on commas into
exactly 5 fields, or any of whose fields the float conversion rejects, makes
`parseBBox` return `None` (the warning is logged) — no exception escapes, as
the result is an `ok` value, not an `error`. -/
theorem parseBBox_malformed (s : String)
    (h : (pySplit s ',').length ≠ 5 ∨ ∃ f ∈ pySplit s ',', parseFloat f = none) :
    getTeiObjBbox (some s) = .ok none := by
  by_cases h5 : (pySplit s ',').length = 5
  · rcases h with h | ⟨f, hf, hnone⟩
    · exact absurd h5 h
    · simp [getTeiObjBbox, h5, parseFloats_none hf hnone]
  · simp [getTeiObjBbox, h5]

/-- C5 witness: the claim applied to the 4-field scenario string
`"1,10,20,30"`. -/
theorem parseBBox_malformed_witness :
    getTeiObjBbox (some "1,10,20,30") = .ok none :=
  parseBBox_malformed "1,10,20,30" (Or.inl (by decide))

/-- C6: for every well-formed 5-field numeric coordinate string whose width
and height fields are non-negative, the box returned by `parseBBox`
satisfies x1 ≥ x0 and y1 ≥ y0. -/
theorem parseBBox_monotone (s : String) (p x0 y0 w h : ℚ)
    (hlen : (pySplit s ',').length = 5)
    (hparse : parseFloats (pySplit s ',') = some [p, x0, y0, w, h])
    (hw : 0 ≤ w) (hh : 0 ≤ h) :
    ∃ bbox : PDFBBox, getTeiObjBbox (some s) = .ok (some bbox) ∧
      bbox.x0 ≤ bbox.x1 ∧ bbox.y0 ≤ bbox.y1 := by
  refine ⟨mkBBox p x0 y0 w h, getTeiObjBbox_of_parse s p x0 y0 w h hlen hparse, ?_, ?_⟩
  · show ((roundHalfEven x0 : ℤ) : ℚ) ≤ ((roundHalfEven x0 + roundHalfEven w : ℤ) : ℚ)
    have hrw : (0 : ℤ) ≤ roundHalfEven w := roundHalfEven_nonneg hw
    exact_mod_cast (by omega : (roundHalfEven x0 : ℤ) ≤ roundHalfEven x0 + roundHalfEven w)
  · show ((roundHalfEven y0 : ℤ) : ℚ) ≤ ((roundHalfEven y0 + roundHalfEven h : ℤ) : ℚ)
    have hrh : (0 : ℤ) ≤ roundHalfEven h := roundHalfEven_nonneg hh
    exact_mod_cast (by omega : (roundHalfEven y0 : ℤ) ≤ roundHalfEven y0 + roundHalfEven h)

/-- C6 witness: the invariant at the concrete string `"1,10.2,20.7,30,40"`. -/
theorem parseBBox_monotone_witness :
    ∃ bbox : PDFBBox, getTeiObjBbox (some "1,10.2,20.7,30,40") = .ok (some bbox) ∧
      bbox.x0 ≤ bbox.x1 ∧ bbox.y0 ≤ bbox.y1 :=
  parseBBox_monotone "1,10.2,20.7,30,40" 1 (mkRat 51 5) (mkRat 207 10) 30 40
    (by decide) (by decide) (by decide) (by decide)

/-- C7: for every parsed mapping, the assembled text is the title, then the
abstract, then for each section in document order its heading followed by its
body, all joined with exactly two newlines; in particular, with filtering
off, the mapping {title "T", abstract "A", sections [{heading "H1",
text "B1"}]} yields the text "T\n\nA\n\nH1\n\nB1". -/
theorem assembleText_order :
    (∀ d : ArticleDict, getTextFromDict false d =
      String.intercalate "\n\n"
        ([d.title, d.abstract] ++ d.sections.flatMap (fun s => [s.heading, s.text]))) ∧
    getTextFromDict false dictEx = "T\n\nA\n\nH1\n\nB1" := by
  constructor
  · intro d
    simp [getTextFromDict, foldl_sections]
  · decide

/-- C8: the non-printable-character filter is idempotent — applying it twice
to any string yields the same result as applying it once. -/
theorem filterPrintable_idem (s : String) :
    filterPrintable (filterPrintable s) = filterPrintable s := by
  show String.mk ((s.toList.filter pyPrintable).filter pyPrintable) =
    String.mk (s.toList.filter pyPrintable)
  rw [filter_pyPrintable_idem]

/-- C3: an accumulator without the required `pdf` attribute makes `process`
fail before any extraction work — with the same error for every parser and
every mode, rich or standard — while an accumulator that carries it never
fails the precondition check. -/
theorem process_missing_input (treeParse : String → Option TeiTree)
    (parse : String → Option ArticleDict) (rnp : Bool) (input : Production)
    (method : Option String) :
    (input.pdf = none →
      process treeParse parse rnp input method = .error (.attributeError "pdf")) ∧
    (∀ f, input.pdf = some f →
      process treeParse parse rnp input method ≠ .error (.attributeError "pdf")) := by
  constructor
  · intro hp
    simp [process, inputTypesKeys, List.find?, hasAttr, hp]
  · intro f hp
    unfold process
    have hfind : inputTypesKeys.find? (fun attr => !hasAttr input attr) = none := by
      simp [inputTypesKeys, List.find?, hasAttr, hp]
    rw [hfind]
    by_cases hm : method = some "rich"
    · rw [if_pos hm]
      rcases htp : treeParse f.path with _ | tree <;>
        rcases hpp : parse f.path with _ | d <;>
          simp [extractRich, hp, htp, hpp]
    · rw [if_neg hm]
      rcases hpp : parse f.path with _ | d <;> simp [extract, hp, hpp]

/-- C3 witness: the check at a concrete accumulator without `pdf` and at one
with it. -/
theorem process_missing_input_witness :
    process treeParseEx parseEx true prodNoPdf none = .error (.attributeError "pdf") ∧
    process treeParseEx parseEx true prodEx none ≠ .error (.attributeError "pdf") :=
  ⟨(process_missing_input treeParseEx parseEx true prodNoPdf none).1 rfl,
   (process_missing_input treeParseEx parseEx true prodEx none).2 pdfEx rfl⟩

/-- C9: for every accumulator satisfying the precondition (and a parser that
yields a mapping), standard-mode `process` returns the accumulator with
exactly the metadata record, the assembled text and the raw parsed mapping
set, and every other field unchanged — expressed as a record update of the
input accumulator. -/
theorem process_standard_frame (treeParse : String → Option TeiTree)
    (parse : String → Option ArticleDict) (rnp : Bool) (p : Production)
    (pdf : PDFFile) (d : ArticleDict)
    (hpdf : p.pdf = some pdf) (hparse : parse pdf.path = some d) :
    process treeParse parse rnp p none =
      .ok { p with metadata := some (buildMetadata d pdf.path)
                   text := some (getTextFromDict rnp d)
                   article_dict := some d } := by
  unfold process
  have hfind : inputTypesKeys.find? (fun attr => !hasAttr p attr) = none := by
    simp [inputTypesKeys, List.find?, hasAttr, hpdf]
  rw [hfind]
  simp [extract, hpdf, hparse]

/-- C9 witness: the frame property at a concrete accumulator and parser. -/
theorem process_standard_frame_witness :
    process treeParseEx parseEx true prodEx none =
      .ok { prodEx with metadata := some (buildMetadata dictEx pdfEx.path)
                        text := some (getTextFromDict true dictEx)
                        article_dict := some dictEx } :=
  process_standard_frame treeParseEx parseEx true prodEx pdfEx dictEx rfl rfl

/-- C10: every mode other than the exact string "rich" — `none` included —
makes `process` behave exactly as the standard strategy invocation; an
unknown mode is never rejected. -/
theorem process_unknown_mode_standard (treeParse : String → Option TeiTree)
    (parse : String → Option ArticleDict) (rnp : Bool) (p : Production)
    (method : Option String) (hm : method ≠ some "rich") :
    process treeParse parse rnp p method = process treeParse parse rnp p none := by
  unfold process
  cases inputTypesKeys.find? (fun attr => !hasAttr p attr) with
  | some a => rfl
  | none => simp [hm]

/-- C10 witness: dispatch with the unknown mode string "bogus". -/
theorem process_unknown_mode_standard_witness :
    process treeParseEx parseEx true prodEx (some "bogus") =
      process treeParseEx parseEx true prodEx none :=
  process_unknown_mode_standard treeParseEx parseEx true prodEx (some "bogus") (by decide)

/-- C1 counterexample: with no start command configured and a health check
that never succeeds, the constructor's ensure-online step nevertheless
returns successfully — it does not fail with the posited
`ServiceUnavailableError`, refuting the claim at this concrete input. -/
theorem ensureOnline_no_start_cmd_cex :
    ensureOnline none (fun _ => false) 1000 = EnsureOutcome.ok ∧
    ensureOnline none (fun _ => false) 1000 ≠ EnsureOutcome.serviceUnavailable :=
  ⟨rfl, by decide⟩

/-- C1 amended: when no start command is configured, the ensure-online step
of the constructor performs no health check at all and returns successfully
for every health behaviour — `ServiceUnavailableError` is never raised (the
source defines no such error). -/
theorem ensureOnline_no_start_cmd_ok (health : ℕ → Bool) (fuel : ℕ) :
    ensureOnline none health fuel = EnsureOutcome.ok := rfl

/-- C2 counterexample: a figure bounding box on page 5 of a 2-page document
makes the region renderer fail with the raw out-of-range indexing fault
(`IndexError` from the list subscript), not with the posited
`PageIndexError`, refuting the claim at this concrete input. -/
theorem renderRegion_page_out_of_range_cex :
    getTeiObjImg (some "5,0,0,10,10") 2 "pdfplumber" = .error PyError.indexError ∧
    PyError.indexError ≠ PyError.pageIndexError :=
  ⟨by decide, by decide⟩

/-- C2 amended: for every bounding box whose 1-based page index exceeds the
page count, rendering the region fails with the raw `IndexError` of the
unguarded list subscript (no `PageIndexError` exists in the source); and
because `process` never invokes figure/equation extraction in either mode,
no bounding box can affect the accumulator's figure and equation fields, so
document metadata and text extraction are unaffected. -/
theorem renderRegion_raw_index_fault (s : String) (numPages : ℕ) (bbox : PDFBBox)
    (hb : getTeiObjBbox (some s) = .ok (some bbox))
    (hpage : (numPages : ℤ) ≤ bbox.page - 1) :
    getTeiObjImg (some s) numPages "pdfplumber" = .error PyError.indexError ∧
    ∀ (treeParse : String → Option TeiTree) (parse : String → Option ArticleDict)
      (rnp : Bool) (p q : Production) (method : Option String),
      process treeParse parse rnp p method = .ok q →
      q.figures = p.figures ∧ q.equations = p.equations := by
  constructor
  · have hget : pyListGet numPages (bbox.page - 1) = .error .indexError := by
      unfold pyListGet
      rw [if_neg (by omega), if_neg (by omega)]
    simp [getTeiObjImg, hb, hget]
  · intro treeParse parse rnp p q method hok
    unfold process at hok
    split at hok
    · exact Except.noConfusion hok
    · split at hok
      · unfold extractRich at hok
        split at hok
        · exact Except.noConfusion hok
        · split at hok
          · exact Except.noConfusion hok
          · split at hok
            · exact Except.noConfusion hok
            · cases Except.ok.inj hok
              exact ⟨rfl, rfl⟩
      · unfold extract at hok
        split at hok
        · exact Except.noConfusion hok
        · split at hok
          · exact Except.noConfusion hok
          · cases Except.ok.inj hok
            exact ⟨rfl, rfl⟩

/-- C2 witness: the amended claim applied to the concrete page-5 bounding box
on a 2-page document, and to a concrete successful `process` run. -/
theorem renderRegion_raw_index_fault_witness :
    getTeiObjImg (some "5,0,0,10,10") 2 "pdfplumber" = .error PyError.indexError ∧
    (prodStdEx.figures = prodEx.figures ∧ prodStdEx.equations = prodEx.equations) := by
  have h := renderRegion_raw_index_fault "5,0,0,10,10" 2
    { page := 5, x0 := 0, y0 := 0, x1 := 10, y1 := 10 } (by decide) (by decide)
  exact ⟨h.1, h.2 treeParseEx parseEx true prodEx prodStdEx none (by decide)⟩
